import Mathlib

/-!
Shallow embedding of the vehicle-access system in `src/app.py`
(class `VehicleAccessSystem` plus the access-control UI flow), together
with theorems settling the frozen claims about it.

Modelling conventions:
* Python strings are Lean `String`s; character-level operations work on
  `String.data` (a `List Char`).  `str.upper` and `str.isalnum` are modelled
  on the basic-latin range (`Char.toUpper`, `Char.isAlphanum`), which is the
  range the plate patterns and the OCR whitelist can produce.
* Python `re.match` with the anchored patterns used by `validate_plate`
  is modelled by `re_match_dollar`: in Python, `$` matches at the end of the
  string OR just before a single newline at the end of the string.
* The sqlite tables are lists of records in insertion (rowid) order; the
  sqlite connection is an explicit `DB` value threaded through each
  operation.  `datetime.now()` is an explicit `now : String` argument.
* sqlite TEXT comparison (used by `BETWEEN` and `ORDER BY`) is the
  byte-wise `bytes_le`; for the ASCII timestamp strings the code writes,
  this coincides with memcmp.  `date(x)` on a `"YYYY-MM-DD HH:MM:SS"`
  timestamp is its 10-character date part (`date_of`).
* Exceptions raised inside the OCR pipeline are modelled by feeding
  `recognize_plate` an `Except` value: `.ok text` is the text returned by
  `pytesseract.image_to_string`, `.error e` is a raised exception.
-/

/-- Python `ch.upper()` for a single basic-latin character (`Char.toUpper`
maps a-z to A-Z and leaves everything else unchanged, exactly like the
relevant range of `str.upper`). -/
def pyUpperChar (c : Char) : Char := Char.toUpper c

/-- Python `s.upper()` on the basic-latin range: uppercase every character. -/
def pyUpper (s : String) : String := ⟨s.data.map pyUpperChar⟩

/-- Body of the Mercosul regex `[A-Z]{3}[0-9][A-Z0-9][0-9]{2}` applied to a
whole character list: 3 uppercase letters, 1 digit, 1 letter-or-digit,
2 digits (7 characters total). -/
def matchMercosul : List Char → Bool
  | [c1, c2, c3, c4, c5, c6, c7] =>
    c1.isUpper && c2.isUpper && c3.isUpper && c4.isDigit &&
      (c5.isUpper || c5.isDigit) && c6.isDigit && c7.isDigit
  | _ => false

/-- Body of the legacy regex `[A-Z]{3}[0-9]{4}` applied to a whole character
list: 3 uppercase letters then 4 digits (7 characters total). -/
def matchAntigo : List Char → Bool
  | [c1, c2, c3, c4, c5, c6, c7] =>
    c1.isUpper && c2.isUpper && c3.isUpper && c4.isDigit &&
      c5.isDigit && c6.isDigit && c7.isDigit
  | _ => false

/-- Python `re.match` for a pattern of the form `^body$` where `body` is a
fixed-width alternation-free character-class sequence: the match succeeds
iff `body` consumes the whole string, or the whole string except a single
trailing newline (Python `$` also matches just before a final `\n`). -/
def re_match_dollar (body : List Char → Bool) (s : List Char) : Bool :=
  body s || (s.getLast? == some '\n' && body s.dropLast)

/-- `VehicleAccessSystem.validate_plate` (src/app.py lines 66-70):
`bool(re.match(pattern_mercosul, plate.upper()) or re.match(pattern_antigo, plate.upper()))`. -/
def validate_plate (plate : String) : Bool :=
  re_match_dollar matchMercosul (pyUpper plate).data ||
    re_match_dollar matchAntigo (pyUpper plate).data

/-- The plate-extraction step of `recognize_plate` (src/app.py line 93):
`plate = ''.join(e for e in text if e.isalnum()).upper()` — every
non-alphanumeric character of the whole OCR text is stripped and the
remainder is uppercased.  There is no per-candidate iteration. -/
def normalize_text (text : String) : String :=
  ⟨(text.data.filter Char.isAlphanum).map pyUpperChar⟩

/-- Lines 93-97 of `recognize_plate`: normalize the whole OCR text and
return it iff it passes `validate_plate`, otherwise return `None`. -/
def extract_plate (text : String) : Option String :=
  let plate := normalize_text text
  if validate_plate plate then some plate else none

/-- `VehicleAccessSystem.recognize_plate` (src/app.py lines 72-100).  The
image decoding, pre-processing and `pytesseract.image_to_string` call are
summarized by the `ocr` argument: `.ok text` is the text the engine
returned, `.error e` is an exception raised anywhere inside the `try`
block.  The result is the returned plate (first component) and the
message shown via `st.error` (second component): on an exception the
function catches it, displays `Erro ao processar imagem: ...` and returns
`None` instead of propagating. -/
def recognize_plate (ocr : Except String String) : Option String × Option String :=
  match ocr with
  | Except.ok text => (extract_plate text, none)
  | Except.error e => (none, some ("Erro ao processar imagem: " ++ e))

/-- Row of the `colaboradores` table (src/app.py lines 27-36).  `nome` and
`cargo` are NOT NULL; `tag_id` and `foto` are nullable; the photo blob is
kept abstract as a string of bytes. -/
structure Colaborador where
  id : Nat
  nome : String
  cargo : String
  tag_id : Option String
  foto : Option String
  ativo : Bool
deriving DecidableEq

/-- Row of the `veiculos` table (src/app.py lines 39-50).  `colaborador_id`
is a nullable reference into `colaboradores`. -/
structure Veiculo where
  id : Nat
  placa : String
  modelo : String
  marca : String
  cor : String
  colaborador_id : Option Nat
  tipo_veiculo : String
deriving DecidableEq

/-- Row of the `acessos` table (src/app.py lines 53-62).  `veiculo_id` is
nullable in the schema. -/
structure Acesso where
  veiculo_id : Option Nat
  data_hora : String
  acesso_permitido : Bool
  observacoes : String
deriving DecidableEq

/-- The three tables of `carbon_access.db`, each in rowid (insertion)
order. -/
structure DB where
  colaboradores : List Colaborador
  veiculos : List Veiculo
  acessos : List Acesso
deriving DecidableEq

/-- The `LEFT JOIN colaboradores c ON v.colaborador_id = c.id` used by both
`get_vehicle_info` and `get_access_report`: a NULL `colaborador_id`
joins nothing, otherwise the first `colaboradores` row with that id. -/
def owner_of (db : DB) (v : Veiculo) : Option Colaborador :=
  v.colaborador_id.bind fun cid => db.colaboradores.find? fun c => c.id == cid

/-- Result row of `get_vehicle_info`: the vehicle columns plus the owner
columns, all owner columns NULL when the LEFT JOIN found no owner. -/
structure VehicleInfo where
  placa : String
  modelo : String
  marca : String
  cor : String
  tipo_veiculo : String
  nome : Option String
  cargo : Option String
  tag_id : Option String
  foto : Option String
deriving DecidableEq

/-- `VehicleAccessSystem.get_vehicle_info` (src/app.py lines 102-112):
`SELECT ... FROM veiculos v LEFT JOIN colaboradores c ON
v.colaborador_id = c.id WHERE v.placa = ?` followed by `fetchone()`. -/
def get_vehicle_info (db : DB) (plate : String) : Option VehicleInfo :=
  (db.veiculos.find? fun v => v.placa == plate).map fun v =>
    match owner_of db v with
    | some c =>
      { placa := v.placa, modelo := v.modelo, marca := v.marca, cor := v.cor,
        tipo_veiculo := v.tipo_veiculo, nome := some c.nome, cargo := some c.cargo,
        tag_id := c.tag_id, foto := c.foto }
    | none =>
      { placa := v.placa, modelo := v.modelo, marca := v.marca, cor := v.cor,
        tipo_veiculo := v.tipo_veiculo, nome := none, cargo := none,
        tag_id := none, foto := none }

/-- `VehicleAccessSystem.register_access` (src/app.py lines 114-127):
look the plate up in `veiculos`; if a row is found, INSERT one row into
`acessos` (with that vehicle id, the current timestamp, the flag and the
notes) and return `True`; if no vehicle matches the plate, insert
nothing and return `False`. -/
def register_access (db : DB) (plate : String) (allowed : Bool)
    (notes : String) (now : String) : DB × Bool :=
  match db.veiculos.find? fun v => v.placa == plate with
  | some v =>
    ({ db with acessos := db.acessos ++
        [{ veiculo_id := some v.id, data_hora := now,
           acesso_permitido := allowed, observacoes := notes }] }, true)
  | none => (db, false)

/-- Values accepted by the `CHECK(tipo_veiculo IN (...))` constraint of the
`veiculos` table. -/
def tipoPermitido (t : String) : Bool :=
  t == "Diretor" || t == "Gerente" || t == "Funcionario" || t == "Visitante"

/-- AUTOINCREMENT id for a fresh `veiculos` row. -/
def nextVehicleId (db : DB) : Nat :=
  (db.veiculos.foldl (fun m v => max m v.id) 0) + 1

/-- `VehicleAccessSystem.add_vehicle` (src/app.py lines 143-157): reject an
invalid plate with `(False, "Placa inválida")`; otherwise INSERT the
vehicle with the uppercased plate; a constraint violation (UNIQUE on
`placa`, or the `tipo_veiculo` CHECK) raises `sqlite3.IntegrityError`,
which is caught and reported as `(False, "Placa já cadastrada")` with the
statement aborted and nothing written. -/
def add_vehicle (db : DB) (plate model brand color : String)
    (employee_id : Option Nat) (vehicle_type : String) : DB × Bool × String :=
  if !validate_plate plate then (db, false, "Placa inválida")
  else if db.veiculos.any fun v => v.placa == pyUpper plate then
    (db, false, "Placa já cadastrada")
  else if !tipoPermitido vehicle_type then (db, false, "Placa já cadastrada")
  else
    ({ db with veiculos := db.veiculos ++
        [{ id := nextVehicleId db, placa := pyUpper plate, modelo := model,
           marca := brand, cor := color, colaborador_id := employee_id,
           tipo_veiculo := vehicle_type }] },
     true, "Veículo cadastrado com sucesso")

/-- Byte-wise (memcmp-style) less-or-equal on character lists, the order
sqlite uses to compare TEXT values with the default BINARY collation;
for the ASCII strings handled here, codepoint order equals byte order. -/
def bytes_le : List Char → List Char → Bool
  | [], _ => true
  | _ :: _, [] => false
  | a :: as, b :: bs =>
    if a.toNat < b.toNat then true
    else if b.toNat < a.toNat then false
    else bytes_le as bs

/-- sqlite TEXT comparison lifted to `String`. -/
def str_le (a b : String) : Bool := bytes_le a.data b.data

/-- sqlite `date(x)` for a timestamp written by the code in the format
`YYYY-MM-DD HH:MM:SS`: its 10-character date part. -/
def date_of (s : String) : String := ⟨s.data.take 10⟩

/-- The optional report filter: `WHERE date(a.data_hora) BETWEEN ? AND ?`
is added only when both a start and an end date are supplied
(src/app.py lines 172-175); `BETWEEN` is inclusive at both ends. -/
def in_range (range : Option (String × String)) (dh : String) : Bool :=
  match range with
  | none => true
  | some (s, e) => str_le s (date_of dh) && str_le (date_of dh) e

/-- Row of the report query of `get_access_report` (src/app.py
lines 163-170). -/
structure ReportRow where
  data_hora : String
  placa : String
  modelo : String
  marca : String
  nome : Option String
  cargo : Option String
  status : String
  observacoes : String
deriving DecidableEq

/-- One access event joined through `JOIN veiculos v ON a.veiculo_id = v.id`
(an INNER join: an event whose `veiculo_id` is NULL or matches no vehicle
produces no row) and then `LEFT JOIN colaboradores`. -/
def report_row (db : DB) (a : Acesso) : Option ReportRow :=
  match a.veiculo_id.bind fun vid => db.veiculos.find? fun v => v.id == vid with
  | none => none
  | some v =>
    some { data_hora := a.data_hora, placa := v.placa, modelo := v.modelo,
           marca := v.marca, nome := (owner_of db v).map Colaborador.nome,
           cargo := (owner_of db v).map Colaborador.cargo,
           status := if a.acesso_permitido then "LIBERADO" else "NEGADO",
           observacoes := a.observacoes }

/-- The rows of the report query before `ORDER BY`: every access event that
passes the optional date filter and joins to a vehicle. -/
def report_rows (db : DB) (range : Option (String × String)) : List ReportRow :=
  (db.acessos.filter fun a => in_range range a.data_hora).filterMap (report_row db)

/-- The `ORDER BY a.data_hora DESC` comparison: a row precedes another when
its timestamp is at least as late. -/
def newest_first (x y : ReportRow) : Prop :=
  str_le y.data_hora x.data_hora = true

instance : DecidableRel newest_first := fun x y =>
  inferInstanceAs (Decidable (str_le y.data_hora x.data_hora = true))

/-- `VehicleAccessSystem.get_access_report` (src/app.py lines 159-180):
the joined, optionally date-filtered rows, ordered newest-first by the
timestamp column. -/
def get_access_report (db : DB) (range : Option (String × String)) : List ReportRow :=
  List.insertionSort newest_first (report_rows db range)

/-- The two terminal outcomes of the access-decision flow. -/
inductive Decision where
  | allowed
  | denied
deriving DecidableEq

/-- The decision logic of the `Busca por Placa` tab (src/app.py
lines 196-232): the typed input is uppercased (line 197); if it is empty
or fails `validate_plate`, only a format warning is shown and no decision
is made (`none`); otherwise the decision is ALLOWED exactly when
`get_vehicle_info` finds a record and DENIED otherwise. -/
def tab1_decision (db : DB) (raw : String) : Option Decision :=
  let plate := pyUpper raw
  if plate == "" then none
  else if validate_plate plate then
    some (if (get_vehicle_info db plate).isSome then Decision.allowed else Decision.denied)
  else none

/-- The `Reconhecimento por Imagem` tab (src/app.py lines 234-265): run
`recognize_plate`; with no plate, warn and touch nothing; with a plate,
look it up and register an allowed access (vehicle found) or — after the
confirmation button — a denied access with the typed notes (vehicle not
found). -/
def tab2_process (db : DB) (ocr : Except String String)
    (notes now : String) : DB × Option Decision :=
  match (recognize_plate ocr).fst with
  | none => (db, none)
  | some plate =>
    match get_vehicle_info db plate with
    | some info => ((register_access db info.placa true "" now).fst, some Decision.allowed)
    | none => ((register_access db plate false notes now).fst, some Decision.denied)

/-- Modelled from the spec (for comparison with `validate_plate`): the
acceptance the spec describes — case-insensitive, and the uppercased
string must be EXACTLY a Mercosul-grammar or legacy-grammar plate
(anchored at both ends, whole string, 7 characters). -/
def spec_plate_grammar (s : String) : Bool :=
  matchMercosul (pyUpper s).data || matchAntigo (pyUpper s).data

/-- Uppercasing an alphanumeric basic-latin character yields an uppercase
letter or a digit. -/
theorem toUpper_alnum (c : Char) (h : c.isAlphanum = true) :
    ((Char.toUpper c).isUpper || (Char.toUpper c).isDigit) = true := by
  simp only [Char.isAlphanum, Char.isAlpha, Char.isUpper, Char.isLower, Char.isDigit,
    Bool.or_eq_true, Bool.and_eq_true, decide_eq_true_eq] at h
  have e65 : ((65 : UInt32).toBitVec).toNat = 65 := rfl
  have e48 : ((48 : UInt32).toBitVec).toNat = 48 := rfl
  have e57 : ((57 : UInt32).toBitVec).toNat = 57 := rfl
  have e90 : ((90 : UInt32).toBitVec).toNat = 90 := rfl
  have e97 : ((97 : UInt32).toBitVec).toNat = 97 := rfl
  have e122 : ((122 : UInt32).toBitVec).toNat = 122 := rfl
  have ecv : (c.val.toBitVec).toNat = c.toNat := rfl
  unfold Char.toUpper
  by_cases hc : c.toNat ≥ 97 ∧ c.toNat ≤ 122
  · rw [if_pos hc]
    have hv : (c.toNat - 32).isValidChar := Or.inl (by omega)
    rw [Char.ofNat, dif_pos hv]
    simp only [Char.ofNatAux, Char.isUpper, Char.isDigit, Bool.or_eq_true, Bool.and_eq_true,
      decide_eq_true_eq, UInt32.le_def, BitVec.le_def, BitVec.toNat_ofNatLt, e65, e90]
    left
    omega
  · rw [if_neg hc]
    simp only [Char.isUpper, Char.isDigit, Bool.or_eq_true, Bool.and_eq_true,
      decide_eq_true_eq, UInt32.le_def, BitVec.le_def, e65, e90, e48, e57, ecv]
    simp only [UInt32.le_def, BitVec.le_def, e97, e122, ecv] at h
    omega

/-- The byte-wise order is total. -/
theorem bytes_le_total : ∀ a b : List Char, bytes_le a b = true ∨ bytes_le b a = true := by
  intro a
  induction a with
  | nil => intro b; left; simp [bytes_le]
  | cons x xs ih =>
    intro b
    cases b with
    | nil => right; simp [bytes_le]
    | cons y ys =>
      by_cases h1 : x.toNat < y.toNat
      · left; simp [bytes_le, h1]
      · by_cases h2 : y.toNat < x.toNat
        · right; simp [bytes_le, h2]
        · rcases ih ys with ih1 | ih1
          · left; simp [bytes_le, h1, h2, ih1]
          · right; simp [bytes_le, h1, h2, ih1]

/-- The byte-wise order is transitive. -/
theorem bytes_le_trans : ∀ a b c : List Char,
    bytes_le a b = true → bytes_le b c = true → bytes_le a c = true := by
  intro a
  induction a with
  | nil => intro b c _ _; simp [bytes_le]
  | cons x xs ih =>
    intro b c hab hbc
    cases b with
    | nil => simp [bytes_le] at hab
    | cons y ys =>
      cases c with
      | nil => simp [bytes_le] at hbc
      | cons z zs =>
        simp only [bytes_le] at hab hbc ⊢
        rcases Nat.lt_trichotomy x.toNat y.toNat with hxy | hxy | hxy
        · rcases Nat.lt_trichotomy y.toNat z.toNat with hyz | hyz | hyz
          · simp [show x.toNat < z.toNat by omega]
          · simp [show x.toNat < z.toNat by omega]
          · rw [if_neg (show ¬ y.toNat < z.toNat by omega), if_pos hyz] at hbc
            cases hbc
        · rcases Nat.lt_trichotomy y.toNat z.toNat with hyz | hyz | hyz
          · simp [show x.toNat < z.toNat by omega]
          · rw [if_neg (show ¬ x.toNat < y.toNat by omega),
              if_neg (show ¬ y.toNat < x.toNat by omega)] at hab
            rw [if_neg (show ¬ y.toNat < z.toNat by omega),
              if_neg (show ¬ z.toNat < y.toNat by omega)] at hbc
            rw [if_neg (show ¬ x.toNat < z.toNat by omega),
              if_neg (show ¬ z.toNat < x.toNat by omega)]
            exact ih ys zs hab hbc
          · rw [if_neg (show ¬ y.toNat < z.toNat by omega), if_pos hyz] at hbc
            cases hbc
        · rw [if_neg (show ¬ x.toNat < y.toNat by omega), if_pos hxy] at hab
          cases hab

instance : IsTotal ReportRow newest_first :=
  ⟨fun a b => bytes_le_total b.data_hora.data a.data_hora.data⟩

instance : IsTrans ReportRow newest_first :=
  ⟨fun _ _ _ hab hbc => bytes_le_trans _ _ _ hbc hab⟩

/-- Characterization of the extraction step: a plate is returned exactly
when it is the normalization of the whole OCR text and that
normalization validates. -/
theorem extract_plate_eq_some_iff (text p : String) :
    extract_plate text = some p ↔ (p = normalize_text text ∧ validate_plate p = true) := by
  unfold extract_plate
  by_cases h : validate_plate (normalize_text text) = true
  · simp only [h, if_true, Option.some.injEq]
    constructor
    · intro he; exact ⟨he.symm, he ▸ h⟩
    · intro he; exact he.1.symm
  · simp only [eq_false_of_ne_true h, if_false]
    constructor
    · intro he; cases he
    · intro he; exact absurd (he.1 ▸ he.2) h

/-- Every character of a normalized OCR text is an uppercase letter or a
digit. -/
theorem normalize_text_upper_digit (text : String) :
    (normalize_text text).data.all (fun c => c.isUpper || c.isDigit) = true := by
  rw [List.all_eq_true]
  intro c hc
  have hc' : c ∈ (text.data.filter Char.isAlphanum).map pyUpperChar := hc
  obtain ⟨d, hd, hdc⟩ := List.mem_map.mp hc'
  have halnum : d.isAlphanum = true := (List.mem_filter.mp hd).2
  subst hdc
  exact toUpper_alnum d halnum

/-- Every row produced by the report query satisfies the date filter that
produced it. -/
theorem mem_report_rows_in_range (db : DB) (range : Option (String × String))
    (r : ReportRow) (hr : r ∈ report_rows db range) :
    in_range range r.data_hora = true := by
  unfold report_rows at hr
  obtain ⟨a, ha, har⟩ := List.mem_filterMap.mp hr
  have hfil := List.mem_filter.mp ha
  unfold report_row at har
  rcases hm : a.veiculo_id.bind fun vid => db.veiculos.find? fun v => v.id == vid with _ | v
  · rw [hm] at har; cases har
  · rw [hm] at har
    cases har
    exact hfil.2

/-- An empty database, as created by `create_database` on a fresh file. -/
def emptyDB : DB := { colaboradores := [], veiculos := [], acessos := [] }

/-- A registered employee. -/
def colabJane : Colaborador :=
  { id := 1, nome := "Jane Doe", cargo := "Gerente", tag_id := some "T1",
    foto := none, ativo := true }

/-- A registered vehicle owned by `colabJane`. -/
def vehicleXYZ : Veiculo :=
  { id := 1, placa := "XYZ9A88", modelo := "Onix", marca := "GM", cor := "Preto",
    colaborador_id := some 1, tipo_veiculo := "Funcionario" }

/-- A database with one employee and one vehicle. -/
def dbOne : DB := { colaboradores := [colabJane], veiculos := [vehicleXYZ], acessos := [] }

/-- A vehicle whose owner reference points at a missing employee row. -/
def orphanVehicle : Veiculo :=
  { id := 7, placa := "ABC1234", modelo := "Uno", marca := "Fiat", cor := "Branco",
    colaborador_id := some 99, tipo_veiculo := "Visitante" }

/-- A database containing only `orphanVehicle` and no employees. -/
def dbOrphanOwner : DB :=
  { colaboradores := [], veiculos := [orphanVehicle], acessos := [] }

/-- A stored access event whose vehicle reference is NULL (allowed by the
`acessos` schema). -/
def orphanEvent : Acesso :=
  { veiculo_id := none, data_hora := "2024-01-01 00:00:00",
    acesso_permitido := false, observacoes := "sem veiculo" }

/-- A database whose only access event has no vehicle reference. -/
def dbOrphanEvent : DB := { colaboradores := [], veiculos := [], acessos := [orphanEvent] }

/-- A database with one employee, one vehicle and one logged access. -/
def dbReport : DB :=
  { colaboradores := [colabJane], veiculos := [vehicleXYZ],
    acessos := [{ veiculo_id := some 1, data_hora := "2024-06-01 10:00:00",
                  acesso_permitido := true, observacoes := "" }] }

/-- The report row generated from the single access event of `dbReport`. -/
def reportRow0 : ReportRow :=
  { data_hora := "2024-06-01 10:00:00", placa := "XYZ9A88", modelo := "Onix",
    marca := "GM", nome := some "Jane Doe", cargo := some "Gerente",
    status := "LIBERADO", observacoes := "" }

/-- C1: the claim states that `register_access` appends exactly one row to
the access-events table for EVERY plate, in particular also when the
plate matches no registered vehicle.  The code disagrees: on an unknown
plate it looks the vehicle up, finds nothing, inserts NO row and returns
`False` (src/app.py lines 117-127), even though the surrounding UI then
reports the denial as saved.  On a known plate it does append exactly
one row. -/
theorem register_access_unknown_plate_not_logged :
    register_access emptyDB "ABC1D23" false "not registered" "2024-01-01 08:00:00"
      = (emptyDB, false)
  ∧ (register_access dbOne "XYZ9A88" true "" "2024-01-01 08:00:00").fst.acessos.length
      = dbOne.acessos.length + 1 := by
  exact ⟨rfl, rfl⟩

/-- C2 counterexample: the claim states that for the OCR candidate
sequence `XYZ9A88`, `J4NK` (as returned by the engine, one fragment per
line) the extraction returns `XYZ9A88`.  The code instead concatenates
the alphanumeric characters of the WHOLE text into `XYZ9A88J4NK`, which
fails validation, so it returns nothing. -/
theorem recognize_two_candidates_returns_none :
    recognize_plate (Except.ok "XYZ9A88\nJ4NK\n") = (none, none)
  ∧ extract_plate "XYZ9A88\nJ4NK\n" ≠ some "XYZ9A88"
  ∧ normalize_text "XYZ9A88\nJ4NK\n" = "XYZ9A88J4NK" := by
  exact ⟨rfl, by decide, rfl⟩

/-- C2 amended: plate extraction strips every non-alphanumeric character
of the ENTIRE OCR text, uppercases the remainder, and returns that
single normalized string iff it passes the validator; if it does not
validate the result is absent, not an error.  There is no per-candidate
first-match selection: several candidates in the text are concatenated
before validation, so a text containing `XYZ9A88` followed by `J4NK`
yields nothing, while a text whose alphanumeric content is exactly
`XYZ9A88` yields `XYZ9A88`. -/
theorem extract_plate_whole_text_normalization :
    (∀ text p, extract_plate text = some p ↔
      (p = normalize_text text ∧ validate_plate p = true))
  ∧ extract_plate "XYZ9A88" = some "XYZ9A88"
  ∧ extract_plate "XYZ9A88\nJ4NK\n" = none := by
  exact ⟨extract_plate_eq_some_iff, by decide, by decide⟩

/-- C2 witness: the amended characterization applied at a concrete OCR
text. -/
theorem extract_plate_whole_text_normalization_witness :
    extract_plate "abc-1d23" = some "ABC1D23" :=
  (extract_plate_whole_text_normalization.1 "abc-1d23" "ABC1D23").mpr
    ⟨by decide, by decide⟩

/-- C3: the claim states that every string whose length is not 7 is
rejected.  The code evaluates `bool(re.match(r'^[A-Z]{3}[0-9]{4}$', s))`
and Python `$` also matches just before a trailing newline, so the
8-character string `ABC1234\n` is ACCEPTED, contradicting the claim
(and the spec requirement that the pattern be anchored at both ends). -/
theorem validate_plate_accepts_length_eight :
    validate_plate "ABC1234\n" = true ∧ "ABC1234\n".length = 8 := by
  exact ⟨by decide, by decide⟩

/-- C4: in the plate-search tab, once the typed (uppercased) plate is
nonempty and validates, the decision is ALLOWED iff `get_vehicle_info`
returns a record, DENIED otherwise, and no decision other than these
two is possible. -/
theorem tab1_decision_allowed_iff_lookup (db : DB) (raw : String)
    (h1 : pyUpper raw ≠ "") (h2 : validate_plate (pyUpper raw) = true) :
    (tab1_decision db raw = some Decision.allowed ↔
      (get_vehicle_info db (pyUpper raw)).isSome = true)
  ∧ (tab1_decision db raw = some Decision.denied ↔
      (get_vehicle_info db (pyUpper raw)).isSome = false)
  ∧ (∀ d, tab1_decision db raw = some d →
      d = Decision.allowed ∨ d = Decision.denied) := by
  have e1 : (pyUpper raw == "") = false := beq_eq_false_iff_ne.mpr h1
  cases hs : (get_vehicle_info db (pyUpper raw)).isSome with
  | true =>
    refine ⟨?_, ?_, ?_⟩
    · simp [tab1_decision, e1, h2, hs]
    · simp [tab1_decision, e1, h2, hs]
    · intro d _; cases d
      · exact Or.inl rfl
      · exact Or.inr rfl
  | false =>
    refine ⟨?_, ?_, ?_⟩
    · simp [tab1_decision, e1, h2, hs]
    · simp [tab1_decision, e1, h2, hs]
    · intro d _; cases d
      · exact Or.inl rfl
      · exact Or.inr rfl

/-- C4 witness: a lowercase typed plate of a registered vehicle is
uppercased, validates, and yields ALLOWED. -/
theorem tab1_decision_allowed_iff_lookup_witness :
    tab1_decision dbOne "xyz9a88" = some Decision.allowed :=
  (tab1_decision_allowed_iff_lookup dbOne "xyz9a88" (by decide) (by decide)).1.mpr
    (by decide)

/-- C5: `add_vehicle` with a plate that fails the validator, or whose
canonical (uppercased) form is already present in `veiculos`, returns
failure together with a message and leaves the whole database — in
particular the `veiculos` table — unchanged: no partial write. -/
theorem add_vehicle_failure_leaves_registry (db : DB)
    (plate model brand color : String) (eid : Option Nat) (vtype : String)
    (h : validate_plate plate = false
      ∨ (db.veiculos.any fun v => v.placa == pyUpper plate) = true) :
    (add_vehicle db plate model brand color eid vtype).fst = db
  ∧ (add_vehicle db plate model brand color eid vtype).snd.fst = false
  ∧ ((add_vehicle db plate model brand color eid vtype).snd.snd = "Placa inválida"
    ∨ (add_vehicle db plate model brand color eid vtype).snd.snd
        = "Placa já cadastrada") := by
  rcases h with h | h
  · refine ⟨?_, ?_, Or.inl ?_⟩ <;> simp [add_vehicle, h]
  · by_cases hv : validate_plate plate
    · refine ⟨?_, ?_, Or.inr ?_⟩ <;> simp [add_vehicle, hv, h]
    · refine ⟨?_, ?_, Or.inl ?_⟩ <;>
        simp [add_vehicle, eq_false_of_ne_true hv]

/-- C5 witness: re-registering the existing plate `XYZ9A88` (typed in
lowercase) fails and changes nothing. -/
theorem add_vehicle_failure_leaves_registry_witness :
    (add_vehicle dbOne "xyz9a88" "Gol" "VW" "Azul" none "Visitante").fst = dbOne
  ∧ (add_vehicle dbOne "xyz9a88" "Gol" "VW" "Azul" none "Visitante").snd.fst = false :=
  ⟨(add_vehicle_failure_leaves_registry dbOne "xyz9a88" "Gol" "VW" "Azul" none
      "Visitante" (Or.inr (by decide))).1,
   (add_vehicle_failure_leaves_registry dbOne "xyz9a88" "Gol" "VW" "Azul" none
      "Visitante" (Or.inr (by decide))).2.1⟩

/-- C6: a vehicle whose owner reference is NULL, or references an employee
id with no matching row, is still returned by `get_vehicle_info` (the
query is a LEFT JOIN): the vehicle columns are populated and all owner
columns are NULL. -/
theorem get_vehicle_info_orphan_vehicle (db : DB) (plate : String) (v : Veiculo)
    (hfind : (db.veiculos.find? fun x => x.placa == plate) = some v)
    (hown : v.colaborador_id = none
      ∨ ∀ cid, v.colaborador_id = some cid →
          (db.colaboradores.find? fun c => c.id == cid) = none) :
    get_vehicle_info db plate =
      some { placa := v.placa, modelo := v.modelo, marca := v.marca, cor := v.cor,
             tipo_veiculo := v.tipo_veiculo, nome := none, cargo := none,
             tag_id := none, foto := none } := by
  have h0 : owner_of db v = none := by
    rcases hown with h | h
    · simp [owner_of, h]
    · cases hc : v.colaborador_id with
      | none => simp [owner_of, hc]
      | some cid => simp [owner_of, hc, h cid hc]
  unfold get_vehicle_info
  rw [hfind, Option.map_some', h0]

/-- C6 witness: the vehicle `ABC1234` references the missing employee id
99 and is still returned, with empty owner fields. -/
theorem get_vehicle_info_orphan_vehicle_witness :
    get_vehicle_info dbOrphanOwner "ABC1234" =
      some { placa := "ABC1234", modelo := "Uno", marca := "Fiat", cor := "Branco",
             tipo_veiculo := "Visitante", nome := none, cargo := none,
             tag_id := none, foto := none } :=
  get_vehicle_info_orphan_vehicle dbOrphanOwner "ABC1234" orphanVehicle (by decide)
    (Or.inr (by intro cid hc; injection hc with h; subst h; rfl))

/-- C7: when the OCR pipeline raises, `recognize_plate` catches the
exception, surfaces it to the caller as the displayed message
`Erro ao processar imagem: ...` instead of propagating, returns no
plate, and the image tab logs no access event: the database is left
unchanged and no decision is produced. -/
theorem recognize_plate_error_no_event :
    ∀ (db : DB) (e notes now : String),
      recognize_plate (Except.error e)
        = (none, some ("Erro ao processar imagem: " ++ e))
    ∧ (tab2_process db (Except.error e) notes now).fst = db
    ∧ (tab2_process db (Except.error e) notes now).snd = none := by
  intro db e notes now
  exact ⟨rfl, rfl, rfl⟩

/-- C8 counterexample: the claim states the report returns the stored
access events; but the report query inner-joins `veiculos`, so the
stored event of `dbOrphanEvent` (whose vehicle reference is NULL) is
silently dropped and the report is empty. -/
theorem report_drops_unresolved_event :
    get_access_report dbOrphanEvent none = []
  ∧ dbOrphanEvent.acessos.length = 1 := by
  exact ⟨by decide, rfl⟩

/-- C8 amended: `get_access_report` returns exactly the access events that
resolve (through the inner join on `veiculos`) to a registered vehicle
and, when both endpoints of a date range are supplied, whose date part
lies inclusively between them; the rows come ordered newest-first
(timestamps descending). -/
theorem get_access_report_join_filter_sorted :
    ∀ (db : DB) (range : Option (String × String)),
      (get_access_report db range).Perm (report_rows db range)
    ∧ List.Sorted newest_first (get_access_report db range)
    ∧ (∀ s e, range = some (s, e) → ∀ r ∈ get_access_report db range,
        str_le s (date_of r.data_hora) = true
        ∧ str_le (date_of r.data_hora) e = true) := by
  intro db range
  refine ⟨List.perm_insertionSort newest_first (report_rows db range),
    List.sorted_insertionSort newest_first (report_rows db range), ?_⟩
  intro s e hre r hr
  have hmem : r ∈ report_rows db range :=
    (List.perm_insertionSort newest_first (report_rows db range)).subset hr
  have hin := mem_report_rows_in_range db range r hmem
  rw [hre] at hin
  exact Bool.and_eq_true_iff.mp hin

/-- C8 witness: the inclusive date filter applied to the single row of the
concrete report. -/
theorem get_access_report_join_filter_sorted_witness :
    str_le "2024-01-01" (date_of "2024-06-01 10:00:00") = true
  ∧ str_le (date_of "2024-06-01 10:00:00") "2024-12-31" = true :=
  (get_access_report_join_filter_sorted dbReport
    (some ("2024-01-01", "2024-12-31"))).2.2 "2024-01-01" "2024-12-31" rfl
    reportRow0 (by decide)

/-- C9: the four example evaluations of the claim all hold, and input is
uppercased before matching (the lowercase example is accepted).  But the
claim also states acceptance is EXACTLY the Mercosul or legacy grammar,
while the code (Python `$`) additionally accepts a valid plate followed
by one trailing newline: `ABC1D23\n` is accepted yet belongs to neither
grammar. -/
theorem validate_plate_examples_and_grammar_deviation :
    validate_plate "ABC1D23" = true
  ∧ validate_plate "abc1d23" = true
  ∧ validate_plate "ABC1234" = true
  ∧ validate_plate "AB12345" = false
  ∧ validate_plate "ABC1D23\n" = true
  ∧ spec_plate_grammar "ABC1D23\n" = false := by
  exact ⟨by decide, by decide, by decide, by decide, by decide, by decide⟩

/-- C10: whenever `recognize_plate` returns a plate, that plate passes
`validate_plate` and consists only of uppercase letters and digits (the
OCR text is filtered to alphanumerics and uppercased before the
validation gate). -/
theorem recognize_plate_result_valid_canonical :
    ∀ (ocr : Except String String) (p : String),
      (recognize_plate ocr).fst = some p →
        validate_plate p = true
        ∧ p.data.all (fun c => c.isUpper || c.isDigit) = true := by
  intro ocr p hp
  cases ocr with
  | error e => exact absurd hp (by simp [recognize_plate])
  | ok text =>
    have hx : extract_plate text = some p := hp
    have h := (extract_plate_eq_some_iff text p).mp hx
    refine ⟨h.2, ?_⟩
    rw [h.1]
    exact normalize_text_upper_digit text

/-- C10 witness: a noisy OCR text yields the validated canonical plate
`ABC1D23`. -/
theorem recognize_plate_result_valid_canonical_witness :
    validate_plate "ABC1D23" = true
  ∧ "ABC1D23".data.all (fun c => c.isUpper || c.isDigit) = true :=
  recognize_plate_result_valid_canonical (Except.ok " abc-1d23 ") "ABC1D23" (by decide)
